import Mathlib

/-!
# Verification of the lidarr provider's notification mapping core

A shallow embedding of the polymorphic field-mapping core of the
terraform-provider-lidarr repository: terraform attribute values, the
generic `Notification` pivot record, the four variant adapters present in
the source (custom script, gotify, email, subsonic), the indexer lookup,
the import-identifier parser, and the per-operation lifecycle steps
(Create/Read/Update/Delete/Configure/Import) at the remote-client
boundary.  Remote calls are modelled by passing the remote result
(`Except ClientError _`) as an explicit argument to each step function.
-/

/-- Terraform framework boolean attribute value (`types.Bool`):
null, unknown, or a known boolean. The Go zero value is null. -/
inductive TFBool
  | null
  | unknown
  | val (b : Bool)
  deriving DecidableEq, Repr, Inhabited

/-- Terraform framework 64-bit integer attribute value (`types.Int64`). -/
inductive TFInt64
  | null
  | unknown
  | val (i : Int)
  deriving DecidableEq, Repr, Inhabited

/-- Terraform framework string attribute value (`types.String`). -/
inductive TFString
  | null
  | unknown
  | val (s : String)
  deriving DecidableEq, Repr, Inhabited

/-- Terraform framework set attribute value (`types.Set`), with element
values of type `α` (the provider uses sets of int64 and of string). -/
inductive TFSet (α : Type)
  | null
  | unknown
  | val (xs : List α)
  deriving DecidableEq, Repr, Inhabited

/-- `types.Bool.ValueBool`: the known value, `false` when null/unknown. -/
def TFBool.valueBool : TFBool → Bool
  | .val b => b
  | _ => false

/-- `types.Int64.ValueInt64`: the known value, `0` when null/unknown. -/
def TFInt64.valueInt : TFInt64 → Int
  | .val i => i
  | _ => 0

/-- `types.String.ValueString`: the known value, `""` when null/unknown. -/
def TFString.valueString : TFString → String
  | .val s => s
  | _ => ""

/-- Element list of a set value (`tfsdk.ValueAs` into a slice): the
elements when known, the empty list when null/unknown. -/
def TFSet.toElems {α : Type} : TFSet α → List α
  | .val xs => xs
  | _ => []

/-- The generic `Notification` superset record (the pivot type of the
family).  Its defining file is not under `src/`; the attribute set below
is reconstructed from the four variant adapters in `src/` together with
the spec's generic-model description (one optional slot per attribute
used by any of the embedded variants, plus the identity attributes
`ID`/`Name`/`Tags`/`Implementation`/`ConfigContract`).  Unpopulated
slots hold the Go zero value, i.e. the null value. -/
structure Notification where
  Tags : TFSet Int := .null
  To : TFSet String := .null
  Cc : TFSet String := .null
  Bcc : TFSet String := .null
  From : TFString := .null
  Server : TFString := .null
  Name : TFString := .null
  Username : TFString := .null
  Password : TFString := .null
  Host : TFString := .null
  URLBase : TFString := .null
  AppToken : TFString := .null
  Arguments : TFString := .null
  Path : TFString := .null
  Implementation : TFString := .null
  ConfigContract : TFString := .null
  ID : TFInt64 := .null
  Port : TFInt64 := .null
  Priority : TFInt64 := .null
  OnGrab : TFBool := .null
  OnReleaseImport : TFBool := .null
  OnUpgrade : TFBool := .null
  OnRename : TFBool := .null
  OnHealthIssue : TFBool := .null
  OnHealthRestored : TFBool := .null
  OnDownloadFailure : TFBool := .null
  OnImportFailure : TFBool := .null
  OnTrackRetag : TFBool := .null
  IncludeHealthWarnings : TFBool := .null
  OnApplicationUpdate : TFBool := .null
  OnAlbumDelete : TFBool := .null
  OnArtistDelete : TFBool := .null
  UseSSL : TFBool := .null
  Notify : TFBool := .null
  UpdateLibrary : TFBool := .null
  RequireEncryption : TFBool := .null
  deriving DecidableEq, Repr, Inhabited

/-- The typed custom-script record (`NotificationCustomScript`,
src/unnamed/part_002 lines 40-57). -/
structure NotificationCustomScript where
  Tags : TFSet Int
  Arguments : TFString
  Path : TFString
  Name : TFString
  ID : TFInt64
  OnGrab : TFBool
  OnReleaseImport : TFBool
  OnUpgrade : TFBool
  OnRename : TFBool
  OnHealthIssue : TFBool
  OnHealthRestored : TFBool
  OnDownloadFailure : TFBool
  OnImportFailure : TFBool
  OnTrackRetag : TFBool
  IncludeHealthWarnings : TFBool
  OnApplicationUpdate : TFBool
  deriving DecidableEq, Repr, Inhabited

/-- `notificationCustomScriptImplementation` (src/unnamed/part_002). -/
def notificationCustomScriptImplementation : String := "CustomScript"

/-- `notificationCustomScriptConfigContract` (src/unnamed/part_002). -/
def notificationCustomScriptConfigContract : String := "CustomScriptSettings"

/-- `NotificationCustomScript.toNotification`
(src/unnamed/part_002 lines 59-80): projection of the typed record into
the generic record; all generic attributes not listed stay at the Go
zero value (null), and the identity pair is fixed to the variant's
constants. -/
def NotificationCustomScript.toNotification (n : NotificationCustomScript) : Notification :=
  { Tags := n.Tags
    Path := n.Path
    Arguments := n.Arguments
    Name := n.Name
    ID := n.ID
    OnGrab := n.OnGrab
    OnReleaseImport := n.OnReleaseImport
    OnDownloadFailure := n.OnDownloadFailure
    IncludeHealthWarnings := n.IncludeHealthWarnings
    OnApplicationUpdate := n.OnApplicationUpdate
    OnHealthIssue := n.OnHealthIssue
    OnHealthRestored := n.OnHealthRestored
    OnImportFailure := n.OnImportFailure
    OnRename := n.OnRename
    OnUpgrade := n.OnUpgrade
    OnTrackRetag := n.OnTrackRetag
    Implementation := .val notificationCustomScriptImplementation
    ConfigContract := .val notificationCustomScriptConfigContract }

/-- `NotificationCustomScript.fromNotification`
(src/unnamed/part_002 lines 82-99): the Go method assigns every field of
the receiver from the generic record, so it is the record built from
those projections. -/
def NotificationCustomScript.fromNotification (notification : Notification) :
    NotificationCustomScript :=
  { Tags := notification.Tags
    Path := notification.Path
    Arguments := notification.Arguments
    Name := notification.Name
    ID := notification.ID
    OnGrab := notification.OnGrab
    OnTrackRetag := notification.OnTrackRetag
    OnDownloadFailure := notification.OnDownloadFailure
    IncludeHealthWarnings := notification.IncludeHealthWarnings
    OnApplicationUpdate := notification.OnApplicationUpdate
    OnHealthIssue := notification.OnHealthIssue
    OnHealthRestored := notification.OnHealthRestored
    OnReleaseImport := notification.OnReleaseImport
    OnRename := notification.OnRename
    OnUpgrade := notification.OnUpgrade
    OnImportFailure := notification.OnImportFailure }

/-- The typed gotify record (`NotificationGotify`,
src/internal/provider/notification_gotify_resource.go lines 44-62). -/
structure NotificationGotify where
  Tags : TFSet Int
  Server : TFString
  Name : TFString
  AppToken : TFString
  Priority : TFInt64
  ID : TFInt64
  OnGrab : TFBool
  OnReleaseImport : TFBool
  OnAlbumDelete : TFBool
  OnArtistDelete : TFBool
  IncludeHealthWarnings : TFBool
  OnApplicationUpdate : TFBool
  OnHealthIssue : TFBool
  OnHealthRestored : TFBool
  OnDownloadFailure : TFBool
  OnUpgrade : TFBool
  OnImportFailure : TFBool
  deriving DecidableEq, Repr, Inhabited

/-- `notificationGotifyImplementation` (notification_gotify_resource.go). -/
def notificationGotifyImplementation : String := "Gotify"

/-- `notificationGotifyConfigContract` (notification_gotify_resource.go). -/
def notificationGotifyConfigContract : String := "GotifySettings"

/-- `NotificationGotify.toNotification`
(notification_gotify_resource.go lines 64-86). -/
def NotificationGotify.toNotification (n : NotificationGotify) : Notification :=
  { Tags := n.Tags
    Server := n.Server
    AppToken := n.AppToken
    Priority := n.Priority
    Name := n.Name
    ID := n.ID
    OnGrab := n.OnGrab
    OnReleaseImport := n.OnReleaseImport
    OnAlbumDelete := n.OnAlbumDelete
    OnArtistDelete := n.OnArtistDelete
    IncludeHealthWarnings := n.IncludeHealthWarnings
    OnApplicationUpdate := n.OnApplicationUpdate
    OnHealthIssue := n.OnHealthIssue
    OnHealthRestored := n.OnHealthRestored
    OnDownloadFailure := n.OnDownloadFailure
    OnUpgrade := n.OnUpgrade
    OnImportFailure := n.OnImportFailure
    Implementation := .val notificationGotifyImplementation
    ConfigContract := .val notificationGotifyConfigContract }

/-- `NotificationGotify.fromNotification`
(notification_gotify_resource.go lines 88-106). -/
def NotificationGotify.fromNotification (notification : Notification) : NotificationGotify :=
  { Tags := notification.Tags
    Server := notification.Server
    AppToken := notification.AppToken
    Priority := notification.Priority
    Name := notification.Name
    ID := notification.ID
    OnGrab := notification.OnGrab
    OnReleaseImport := notification.OnReleaseImport
    OnAlbumDelete := notification.OnAlbumDelete
    OnArtistDelete := notification.OnArtistDelete
    IncludeHealthWarnings := notification.IncludeHealthWarnings
    OnApplicationUpdate := notification.OnApplicationUpdate
    OnHealthIssue := notification.OnHealthIssue
    OnHealthRestored := notification.OnHealthRestored
    OnDownloadFailure := notification.OnDownloadFailure
    OnUpgrade := notification.OnUpgrade
    OnImportFailure := notification.OnImportFailure }

/-- The typed email record (`NotificationEmail`,
src/internal/provider/notification_email_resource.go lines 42-63). -/
structure NotificationEmail where
  Tags : TFSet Int
  To : TFSet String
  Cc : TFSet String
  Bcc : TFSet String
  From : TFString
  Server : TFString
  Name : TFString
  Username : TFString
  Password : TFString
  ID : TFInt64
  Port : TFInt64
  RequireEncryption : TFBool
  OnGrab : TFBool
  OnReleaseImport : TFBool
  IncludeHealthWarnings : TFBool
  OnApplicationUpdate : TFBool
  OnHealthIssue : TFBool
  OnDownloadFailure : TFBool
  OnUpgrade : TFBool
  OnImportFailure : TFBool
  deriving DecidableEq, Repr, Inhabited

/-- `notificationEmailImplementation` (notification_email_resource.go). -/
def notificationEmailImplementation : String := "Email"

/-- `notificationEmailConfigContract` (notification_email_resource.go). -/
def notificationEmailConfigContract : String := "EmailSettings"

/-- `NotificationEmail.toNotification`
(notification_email_resource.go lines 65-88).  Unlike the custom-script
and gotify adapters, this projection does not set
`Implementation`/`ConfigContract`; the email adapter fixes the pair in
its `read` function instead. -/
def NotificationEmail.toNotification (n : NotificationEmail) : Notification :=
  { Tags := n.Tags
    From := n.From
    To := n.To
    Cc := n.Cc
    Bcc := n.Bcc
    Server := n.Server
    Port := n.Port
    Username := n.Username
    Password := n.Password
    Name := n.Name
    ID := n.ID
    RequireEncryption := n.RequireEncryption
    OnGrab := n.OnGrab
    OnReleaseImport := n.OnReleaseImport
    IncludeHealthWarnings := n.IncludeHealthWarnings
    OnApplicationUpdate := n.OnApplicationUpdate
    OnHealthIssue := n.OnHealthIssue
    OnDownloadFailure := n.OnDownloadFailure
    OnUpgrade := n.OnUpgrade
    OnImportFailure := n.OnImportFailure }

/-- `NotificationEmail.fromNotification`
(notification_email_resource.go lines 90-111). -/
def NotificationEmail.fromNotification (notification : Notification) : NotificationEmail :=
  { Tags := notification.Tags
    From := notification.From
    To := notification.To
    Cc := notification.Cc
    Bcc := notification.Bcc
    Server := notification.Server
    Port := notification.Port
    Username := notification.Username
    Password := notification.Password
    Name := notification.Name
    ID := notification.ID
    RequireEncryption := notification.RequireEncryption
    OnGrab := notification.OnGrab
    OnReleaseImport := notification.OnReleaseImport
    IncludeHealthWarnings := notification.IncludeHealthWarnings
    OnApplicationUpdate := notification.OnApplicationUpdate
    OnHealthIssue := notification.OnHealthIssue
    OnDownloadFailure := notification.OnDownloadFailure
    OnUpgrade := notification.OnUpgrade
    OnImportFailure := notification.OnImportFailure }

/-- The typed subsonic record (`NotificationSubsonic`,
src/internal/provider/notification_subsonic_resource.go lines 41-60). -/
structure NotificationSubsonic where
  Tags : TFSet Int
  Host : TFString
  Name : TFString
  Username : TFString
  Password : TFString
  URLBase : TFString
  Port : TFInt64
  ID : TFInt64
  OnGrab : TFBool
  UseSSL : TFBool
  Notify : TFBool
  UpdateLibrary : TFBool
  OnReleaseImport : TFBool
  OnTrackRetag : TFBool
  OnRename : TFBool
  IncludeHealthWarnings : TFBool
  OnHealthIssue : TFBool
  OnUpgrade : TFBool
  deriving DecidableEq, Repr, Inhabited

/-- `notificationSubsonicImplementation` (notification_subsonic_resource.go). -/
def notificationSubsonicImplementation : String := "Xbmc"

/-- `notificationSubsonicConfigContract` (notification_subsonic_resource.go). -/
def notificationSubsonicConfigContract : String := "XbmcSettings"

/-- `NotificationSubsonic.toNotification`
(notification_subsonic_resource.go lines 62-83).  Like email, the
identity pair is not set here but in the adapter's `read` function. -/
def NotificationSubsonic.toNotification (n : NotificationSubsonic) : Notification :=
  { Tags := n.Tags
    Port := n.Port
    Host := n.Host
    URLBase := n.URLBase
    Password := n.Password
    Username := n.Username
    Name := n.Name
    ID := n.ID
    UseSSL := n.UseSSL
    Notify := n.Notify
    UpdateLibrary := n.UpdateLibrary
    OnGrab := n.OnGrab
    OnReleaseImport := n.OnReleaseImport
    OnRename := n.OnRename
    OnTrackRetag := n.OnTrackRetag
    IncludeHealthWarnings := n.IncludeHealthWarnings
    OnHealthIssue := n.OnHealthIssue
    OnUpgrade := n.OnUpgrade }

/-- `NotificationSubsonic.fromNotification`
(notification_subsonic_resource.go lines 85-104). -/
def NotificationSubsonic.fromNotification (notification : Notification) : NotificationSubsonic :=
  { Tags := notification.Tags
    Port := notification.Port
    URLBase := notification.URLBase
    Host := notification.Host
    Password := notification.Password
    Username := notification.Username
    Name := notification.Name
    ID := notification.ID
    UseSSL := notification.UseSSL
    Notify := notification.Notify
    UpdateLibrary := notification.UpdateLibrary
    OnGrab := notification.OnGrab
    OnReleaseImport := notification.OnReleaseImport
    OnTrackRetag := notification.OnTrackRetag
    IncludeHealthWarnings := notification.IncludeHealthWarnings
    OnHealthIssue := notification.OnHealthIssue
    OnRename := notification.OnRename
    OnUpgrade := notification.OnUpgrade }

/-- C1: For every notification variant adapter (custom script, gotify,
email, subsonic) and every typed record `x` of that variant, projecting
`x` into the generic `Notification` record with `toNotification` and
then back with `fromNotification` yields a typed record equal to `x`
attribute-for-attribute. -/
theorem notification_variant_projection_roundtrip :
    (∀ x : NotificationCustomScript,
      NotificationCustomScript.fromNotification x.toNotification = x) ∧
    (∀ x : NotificationGotify,
      NotificationGotify.fromNotification x.toNotification = x) ∧
    (∀ x : NotificationEmail,
      NotificationEmail.fromNotification x.toNotification = x) ∧
    (∀ x : NotificationSubsonic,
      NotificationSubsonic.fromNotification x.toNotification = x) := by
  refine ⟨fun x => ?_, fun x => ?_, fun x => ?_, fun x => ?_⟩ <;> cases x <;> rfl

/-- A dynamically-typed wire scalar (the spec's tagged-union scalar;
the float case is unused by the embedded variants). -/
inductive WireValue
  | b (x : Bool)
  | i (x : Int)
  | s (x : String)
  deriving DecidableEq, Repr

/-- A wire field: a `(name, value)` pair of the flat dynamic field list. -/
structure WireField where
  name : String
  value : WireValue
  deriving DecidableEq, Repr

/-- The devopsarr `lidarr.NotificationResource` wire record, restricted
to the members the embedded code reads or writes. -/
structure NotificationResourceWire where
  onGrab : Bool := false
  onReleaseImport : Bool := false
  onUpgrade : Bool := false
  onRename : Bool := false
  onHealthIssue : Bool := false
  onHealthRestored : Bool := false
  onDownloadFailure : Bool := false
  onImportFailure : Bool := false
  onTrackRetag : Bool := false
  onApplicationUpdate : Bool := false
  onAlbumDelete : Bool := false
  onArtistDelete : Bool := false
  includeHealthWarnings : Bool := false
  implementation : String := ""
  configContract : String := ""
  id : Int := 0
  name : String := ""
  tags : List Int := []
  fields : List WireField := []
  deriving DecidableEq, Repr, Inhabited

/-- The starr `lidarr.NotificationInput` wire request used by the email
resource, restricted to the members that adapter sets. -/
structure NotificationInputWire where
  onGrab : Bool := false
  onImportFailure : Bool := false
  onUpgrade : Bool := false
  onDownloadFailure : Bool := false
  onReleaseImport : Bool := false
  onHealthIssue : Bool := false
  onApplicationUpdate : Bool := false
  includeHealthWarnings : Bool := false
  configContract : String := ""
  implementation : String := ""
  id : Int := 0
  name : String := ""
  tags : List Int := []
  fields : List WireField := []
  deriving DecidableEq, Repr, Inhabited

/-- The starr `lidarr.NotificationOutput` wire response, restricted to
the members the embedded code reads. -/
structure NotificationOutputWire where
  onGrab : Bool := false
  onImportFailure : Bool := false
  onUpgrade : Bool := false
  onDownloadFailure : Bool := false
  onReleaseImport : Bool := false
  onHealthIssue : Bool := false
  onApplicationUpdate : Bool := false
  includeHealthWarnings : Bool := false
  id : Int := 0
  name : String := ""
  tags : List Int := []
  fields : List WireField := []
  deriving DecidableEq, Repr, Inhabited

/-- Emit one wire field when a string attribute is present (known and
non-null); absent attributes produce no field at all. -/
def optStringField (fieldName : String) : TFString → List WireField
  | .val v => [⟨fieldName, .s v⟩]
  | _ => []

/-- Emit one wire field when an int64 attribute is present. -/
def optIntField (fieldName : String) : TFInt64 → List WireField
  | .val v => [⟨fieldName, .i v⟩]
  | _ => []

/-- Emit one wire field when a boolean attribute is present. -/
def optBoolField (fieldName : String) : TFBool → List WireField
  | .val v => [⟨fieldName, .b v⟩]
  | _ => []

/-- Modelled from the spec: `Notification.readFields`, the encode half
of the Field Codec (its file, the generic notification model, is not
under `src/`).  Per spec section 4.1, each present (non-null) scalar
attribute of the generic record is emitted as one wire field carrying
its name and dynamically-typed value; absent attributes are omitted
entirely, and set-typed identity attributes (`Tags`) are handled outside
the field list. -/
def Notification.readFields (n : Notification) : List WireField :=
  optStringField "arguments" n.Arguments ++
  optStringField "path" n.Path ++
  optStringField "server" n.Server ++
  optStringField "appToken" n.AppToken ++
  optIntField "priority" n.Priority ++
  optIntField "port" n.Port ++
  optStringField "host" n.Host ++
  optStringField "urlBase" n.URLBase ++
  optStringField "username" n.Username ++
  optStringField "password" n.Password ++
  optStringField "from" n.From ++
  optBoolField "useSsl" n.UseSSL ++
  optBoolField "notify" n.Notify ++
  optBoolField "updateLibrary" n.UpdateLibrary ++
  optBoolField "requireEncryption" n.RequireEncryption

/-- Modelled from the spec: the generic `Notification.read` (the wire
request builder of the generic model, whose file is not under `src/`).
Per spec sections 4.1-4.3, it copies the identity attributes
(`ID`/`Name`/`Tags`/`Implementation`/`ConfigContract`) and the flag set
onto the wire record and encodes the variant fields via the Field
Codec.  The identity pair is taken from the generic record, where the
variant's `toNotification` fixed it to the compile-time constants. -/
def Notification.read (n : Notification) : NotificationResourceWire :=
  { onGrab := n.OnGrab.valueBool
    onReleaseImport := n.OnReleaseImport.valueBool
    onUpgrade := n.OnUpgrade.valueBool
    onRename := n.OnRename.valueBool
    onHealthIssue := n.OnHealthIssue.valueBool
    onHealthRestored := n.OnHealthRestored.valueBool
    onDownloadFailure := n.OnDownloadFailure.valueBool
    onImportFailure := n.OnImportFailure.valueBool
    onTrackRetag := n.OnTrackRetag.valueBool
    onApplicationUpdate := n.OnApplicationUpdate.valueBool
    onAlbumDelete := n.OnAlbumDelete.valueBool
    onArtistDelete := n.OnArtistDelete.valueBool
    includeHealthWarnings := n.IncludeHealthWarnings.valueBool
    implementation := n.Implementation.valueString
    configContract := n.ConfigContract.valueString
    id := n.ID.valueInt
    name := n.Name.valueString
    tags := n.Tags.toElems
    fields := n.readFields }

/-- `NotificationCustomScript.read` (src/unnamed/part_002 lines 298-300):
the wire request is the generic `read` of the typed record's projection. -/
def NotificationCustomScript.read (n : NotificationCustomScript) : NotificationResourceWire :=
  n.toNotification.read

/-- `NotificationGotify.read` (notification_gotify_resource.go
lines 325-327). -/
def NotificationGotify.read (n : NotificationGotify) : NotificationResourceWire :=
  n.toNotification.read

/-- `NotificationEmail.read` (notification_email_resource.go
lines 371-392): builds the starr wire request directly, fixing the
identity pair to the email constants. -/
def NotificationEmail.read (n : NotificationEmail) : NotificationInputWire :=
  { onGrab := n.OnGrab.valueBool
    onImportFailure := n.OnImportFailure.valueBool
    onUpgrade := n.OnUpgrade.valueBool
    onDownloadFailure := n.OnDownloadFailure.valueBool
    onReleaseImport := n.OnReleaseImport.valueBool
    onHealthIssue := n.OnHealthIssue.valueBool
    onApplicationUpdate := n.OnApplicationUpdate.valueBool
    includeHealthWarnings := n.IncludeHealthWarnings.valueBool
    configContract := notificationEmailConfigContract
    implementation := notificationEmailImplementation
    id := n.ID.valueInt
    name := n.Name.valueString
    tags := n.Tags.toElems
    fields := n.toNotification.readFields }

/-- `NotificationSubsonic.read` (notification_subsonic_resource.go
lines 328-348): builds the devopsarr wire request through setters,
fixing the identity pair to the subsonic constants. -/
def NotificationSubsonic.read (n : NotificationSubsonic) : NotificationResourceWire :=
  { onGrab := n.OnGrab.valueBool
    onUpgrade := n.OnUpgrade.valueBool
    onRename := n.OnRename.valueBool
    onTrackRetag := n.OnTrackRetag.valueBool
    onReleaseImport := n.OnReleaseImport.valueBool
    onHealthIssue := n.OnHealthIssue.valueBool
    includeHealthWarnings := n.IncludeHealthWarnings.valueBool
    configContract := notificationSubsonicConfigContract
    implementation := notificationSubsonicImplementation
    id := n.ID.valueInt
    name := n.Name.valueString
    tags := n.Tags.toElems
    fields := n.toNotification.readFields }

/-- C2: Every Create and Update of a notification variant resource
builds its outgoing wire request with the variant's `read` function (the
Create and Update bodies both call `notification.read` on the decoded
plan), so the request's implementation and config-contract members equal
the variant's compile-time constant pair for every typed record,
regardless of any value in the plan or prior state. -/
theorem notification_request_identity_pair_constant :
    (∀ x : NotificationCustomScript,
      x.read.implementation = "CustomScript" ∧ x.read.configContract = "CustomScriptSettings") ∧
    (∀ x : NotificationGotify,
      x.read.implementation = "Gotify" ∧ x.read.configContract = "GotifySettings") ∧
    (∀ x : NotificationEmail,
      x.read.implementation = "Email" ∧ x.read.configContract = "EmailSettings") ∧
    (∀ x : NotificationSubsonic,
      x.read.implementation = "Xbmc" ∧ x.read.configContract = "XbmcSettings") := by
  exact ⟨fun x => ⟨rfl, rfl⟩, fun x => ⟨rfl, rfl⟩, fun x => ⟨rfl, rfl⟩, fun x => ⟨rfl, rfl⟩⟩

/-- `notificationCustomScriptResourceName` (src/unnamed/part_002). -/
def notificationCustomScriptResourceName : String := "notification_custom_script"

/-- `notificationGotifyResourceName` (notification_gotify_resource.go). -/
def notificationGotifyResourceName : String := "notification_gotify"

/-- `notificationEmailResourceName` (notification_email_resource.go). -/
def notificationEmailResourceName : String := "notification_email"

/-- `notificationSubsonicResourceName` (notification_subsonic_resource.go). -/
def notificationSubsonicResourceName : String := "notification_subsonic"

/-- `customFormatResourceName` (custom_format_resource.go). -/
def customFormatResourceName : String := "custom_format"

/-- Result of a remote client call at the transport boundary: the remote
either rejects the keyed record as unknown (not-found) or fails for any
other transport/remote reason carrying an error message. -/
inductive ClientError
  | notFound
  | transport (msg : String)
  deriving DecidableEq, Repr

/-- The error text the Go `error` value renders to. -/
def ClientError.text : ClientError → String
  | .notFound => "404 Not Found"
  | .transport msg => msg

/-- The lifecycle operation labels (`helpers.Create`, `helpers.Read`,
`helpers.Update`, `helpers.Delete` — constants of the helpers package,
which is not under `src/`). -/
inductive Op
  | create
  | read
  | update
  | delete
  deriving DecidableEq, Repr

/-- A fatal diagnostic added through `resp.Diagnostics.AddError`: the
operation label passed to the message formatter, the resource kind and
the remote error text.  For the email resource, which formats its
message inline (`"Unable to read %s, got error: %s"`), the `op`
component records the operation word hard-coded in that format string. -/
structure Diag where
  op : Op
  resource : String
  errText : String
  deriving DecidableEq, Repr

/-- Modelled from the spec: `helpers.ParseClientError` (the helpers
package is not under `src/`).  Per spec section 7(a), a remote failure is
surfaced as a labeled failure naming the operation and the resource
kind together with the remote error text; the label is the `Op`
constant the caller passes in. -/
def parseClientError (op : Op) (resource : String) (e : ClientError) : Diag :=
  ⟨op, resource, e.text⟩

/-- Outcome of a Delete lifecycle step: local state removed
(`resp.State.RemoveResource`) or a fatal diagnostic with no removal. -/
inductive DeleteOutcome
  | removed
  | failed (d : Diag)
  deriving DecidableEq, Repr

/-- `NotificationGotifyResource.Delete`
(notification_gotify_resource.go lines 293-312), at the remote
boundary: the remote delete result is the explicit argument.  On any
error the code adds a fatal diagnostic labeled `helpers.Delete` and
keeps the state; otherwise it removes the resource from state. -/
def NotificationGotifyResource.Delete (remote : Except ClientError Unit) : DeleteOutcome :=
  match remote with
  | .error e => .failed (parseClientError .delete notificationGotifyResourceName e)
  | .ok _ => .removed

/-- `NotificationSubsonicResource.Delete`
(notification_subsonic_resource.go lines 285-304).  Note the code labels
the failure with `helpers.Read`, not `helpers.Delete`. -/
def NotificationSubsonicResource.Delete (remote : Except ClientError Unit) : DeleteOutcome :=
  match remote with
  | .error e => .failed (parseClientError .read notificationSubsonicResourceName e)
  | .ok _ => .removed

/-- `NotificationCustomScriptResource.Delete`
(src/unnamed/part_002 lines 266-285).  The failure is labeled
`helpers.Read`. -/
def NotificationCustomScriptResource.Delete (remote : Except ClientError Unit) : DeleteOutcome :=
  match remote with
  | .error e => .failed (parseClientError .read notificationCustomScriptResourceName e)
  | .ok _ => .removed

/-- `NotificationEmailResource.Delete`
(notification_email_resource.go lines 316-335).  The inline message is
`"Unable to read %s, got error: %s"`, so the failure names the read
operation. -/
def NotificationEmailResource.Delete (remote : Except ClientError Unit) : DeleteOutcome :=
  match remote with
  | .error e => .failed ⟨.read, notificationEmailResourceName, e.text⟩
  | .ok _ => .removed

/-- `CustomFormatResource.Delete`
(custom_format_resource.go lines 213-232).  The failure is labeled
`helpers.Read`. -/
def CustomFormatResource.Delete (remote : Except ClientError Unit) : DeleteOutcome :=
  match remote with
  | .error e => .failed (parseClientError .read customFormatResourceName e)
  | .ok _ => .removed

/-- C3 counterexample: Delete invoked when the remote delete operation
reports the record already gone (not-found) does not report success: it
surfaces a fatal diagnostic and keeps the local state, so a second
Delete after remote removal fails rather than succeeding. -/
theorem notification_delete_not_found_is_fatal :
    NotificationGotifyResource.Delete (Except.error ClientError.notFound) ≠
      DeleteOutcome.removed ∧
    NotificationGotifyResource.Delete (Except.error ClientError.notFound) =
      DeleteOutcome.failed
        ⟨Op.delete, notificationGotifyResourceName, ClientError.text ClientError.notFound⟩ := by
  exact ⟨by decide, rfl⟩

/-- C3 amended: for every embedded resource, Delete removes the local
state exactly when the remote delete call reports no error; every
remote error — a not-found for an already-removed record included — is
surfaced as a fatal diagnostic with the state kept, so the second of two
Deletes on the same ID fails rather than reporting success. -/
theorem delete_success_iff_remote_ok :
    ∀ r : Except ClientError Unit,
      (NotificationGotifyResource.Delete r = DeleteOutcome.removed ↔ r = Except.ok ()) ∧
      (NotificationSubsonicResource.Delete r = DeleteOutcome.removed ↔ r = Except.ok ()) ∧
      (NotificationCustomScriptResource.Delete r = DeleteOutcome.removed ↔ r = Except.ok ()) ∧
      (NotificationEmailResource.Delete r = DeleteOutcome.removed ↔ r = Except.ok ()) ∧
      (CustomFormatResource.Delete r = DeleteOutcome.removed ↔ r = Except.ok ()) := by
  intro r
  cases r with
  | error e =>
      refine ⟨?_, ?_, ?_, ?_, ?_⟩ <;>
        exact ⟨fun h => (nomatch h), fun h => (nomatch h)⟩
  | ok u =>
      cases u
      refine ⟨?_, ?_, ?_, ?_, ?_⟩ <;> exact ⟨fun _ => rfl, fun _ => rfl⟩

/-- C4: a failed Delete of the subsonic, custom-script, custom-format
and email resources is reported with the read label, not the delete
label: the code passes `helpers.Read` (or hard-codes "Unable to read")
in its Delete error path, so the diagnostic names an operation other
than the one that failed. -/
theorem delete_error_labeled_as_read :
    NotificationSubsonicResource.Delete (Except.error (ClientError.transport "connection refused"))
      = DeleteOutcome.failed ⟨Op.read, notificationSubsonicResourceName, "connection refused"⟩ ∧
    NotificationCustomScriptResource.Delete
        (Except.error (ClientError.transport "connection refused"))
      = DeleteOutcome.failed
          ⟨Op.read, notificationCustomScriptResourceName, "connection refused"⟩ ∧
    CustomFormatResource.Delete (Except.error (ClientError.transport "connection refused"))
      = DeleteOutcome.failed ⟨Op.read, customFormatResourceName, "connection refused"⟩ ∧
    NotificationEmailResource.Delete (Except.error (ClientError.transport "connection refused"))
      = DeleteOutcome.failed ⟨Op.read, notificationEmailResourceName, "connection refused"⟩ ∧
    Op.read ≠ Op.delete := by
  exact ⟨rfl, rfl, rfl, rfl, by decide⟩

/-- Decode one wire field into the generic record: a declared scalar
attribute matching the field's name is set from the dynamically-typed
value; fields with unknown names are silently ignored (the spec's
superset tolerance, section 9). -/
def Notification.writeField (n : Notification) (f : WireField) : Notification :=
  match f.name, f.value with
  | "arguments", .s v => { n with Arguments := .val v }
  | "path", .s v => { n with Path := .val v }
  | "server", .s v => { n with Server := .val v }
  | "appToken", .s v => { n with AppToken := .val v }
  | "priority", .i v => { n with Priority := .val v }
  | "port", .i v => { n with Port := .val v }
  | "host", .s v => { n with Host := .val v }
  | "urlBase", .s v => { n with URLBase := .val v }
  | "username", .s v => { n with Username := .val v }
  | "password", .s v => { n with Password := .val v }
  | "from", .s v => { n with From := .val v }
  | "useSsl", .b v => { n with UseSSL := .val v }
  | "notify", .b v => { n with Notify := .val v }
  | "updateLibrary", .b v => { n with UpdateLibrary := .val v }
  | "requireEncryption", .b v => { n with RequireEncryption := .val v }
  | _, _ => n

/-- Modelled from the spec: `Notification.writeFields`, the decode half
of the Field Codec (the generic notification model's file is not under
`src/`): each wire field whose name matches a declared attribute sets
that attribute on the generic record; the rest are ignored. -/
def Notification.writeFields (n : Notification) (fs : List WireField) : Notification :=
  fs.foldl Notification.writeField n

/-- Modelled from the spec: the generic `Notification.write` (the
response decoder of the generic model, whose file is not under `src/`).
Per spec sections 4.1-4.3 it refreshes the identity attributes and flag
set from the wire response and decodes the field list via the Field
Codec. -/
def Notification.write (n : Notification) (resp : NotificationResourceWire) : Notification :=
  Notification.writeFields
    { n with
      OnGrab := .val resp.onGrab
      OnReleaseImport := .val resp.onReleaseImport
      OnUpgrade := .val resp.onUpgrade
      OnRename := .val resp.onRename
      OnHealthIssue := .val resp.onHealthIssue
      OnHealthRestored := .val resp.onHealthRestored
      OnDownloadFailure := .val resp.onDownloadFailure
      OnImportFailure := .val resp.onImportFailure
      OnTrackRetag := .val resp.onTrackRetag
      OnApplicationUpdate := .val resp.onApplicationUpdate
      OnAlbumDelete := .val resp.onAlbumDelete
      OnArtistDelete := .val resp.onArtistDelete
      IncludeHealthWarnings := .val resp.includeHealthWarnings
      Implementation := .val resp.implementation
      ConfigContract := .val resp.configContract
      ID := .val resp.id
      Name := .val resp.name
      Tags := .val resp.tags }
    resp.fields

/-- Modelled from the spec: the starr-era generic `Notification.write`
(decoding a `lidarr.NotificationOutput`; the generic model's file is not
under `src/`).  Same decode as `Notification.write` restricted to the
members of the starr response shape. -/
def Notification.writeOutput (n : Notification) (resp : NotificationOutputWire) : Notification :=
  Notification.writeFields
    { n with
      OnGrab := .val resp.onGrab
      OnImportFailure := .val resp.onImportFailure
      OnUpgrade := .val resp.onUpgrade
      OnDownloadFailure := .val resp.onDownloadFailure
      OnReleaseImport := .val resp.onReleaseImport
      OnHealthIssue := .val resp.onHealthIssue
      OnApplicationUpdate := .val resp.onApplicationUpdate
      IncludeHealthWarnings := .val resp.includeHealthWarnings
      ID := .val resp.id
      Name := .val resp.name
      Tags := .val resp.tags }
    resp.fields

/-- `NotificationGotify.write` (notification_gotify_resource.go
lines 319-323): project to the generic record, decode the wire response
into it, and project back. -/
def NotificationGotify.write (n : NotificationGotify) (resp : NotificationResourceWire) :
    NotificationGotify :=
  NotificationGotify.fromNotification (n.toNotification.write resp)

/-- `NotificationCustomScript.write` (src/unnamed/part_002
lines 292-296): same three-step decode as the gotify adapter. -/
def NotificationCustomScript.write (n : NotificationCustomScript)
    (resp : NotificationResourceWire) : NotificationCustomScript :=
  NotificationCustomScript.fromNotification (n.toNotification.write resp)

/-- Outcome of a Read lifecycle step: state refreshed from the remote
record, or a fatal diagnostic with the prior state kept. -/
inductive ReadOutcome (σ : Type)
  | synced (s : σ)
  | failed (d : Diag)
  deriving DecidableEq, Repr

/-- Whether a Read outcome is a fatal diagnostic. -/
def ReadOutcome.isFatal {σ : Type} : ReadOutcome σ → Bool
  | .failed _ => true
  | _ => false

/-- `NotificationGotifyResource.Read`
(notification_gotify_resource.go lines 243-265), at the remote boundary:
the result of `GetNotificationById` keyed by the state's ID is the
explicit argument.  Every remote error is surfaced through the same
`AddError` path labeled `helpers.Read`; there is no separate not-found
branch and the local state is never removed. -/
def NotificationGotifyResource.Read (st : NotificationGotify)
    (remote : Except ClientError NotificationResourceWire) : ReadOutcome NotificationGotify :=
  match remote with
  | .error e => .failed (parseClientError .read notificationGotifyResourceName e)
  | .ok resp => .synced (st.write resp)

/-- `NotificationCustomScriptResource.Read`
(src/unnamed/part_002 lines 216-238): same single error path labeled
`helpers.Read`, no not-found branch, no state removal. -/
def NotificationCustomScriptResource.Read (st : NotificationCustomScript)
    (remote : Except ClientError NotificationResourceWire) :
    ReadOutcome NotificationCustomScript :=
  match remote with
  | .error e => .failed (parseClientError .read notificationCustomScriptResourceName e)
  | .ok resp => .synced (st.write resp)

/-- C5 counterexample: when Read targets an ID the remote no longer
recognizes, the gotify and custom-script resources surface the same
fatal client-error diagnostic used for transport failures — the
not-found outcome is a fatal failure of the identical shape (same
operation label, same resource label, failure constructor), not a
distinct reconcilable not-found signal. -/
theorem notification_read_not_found_fatal :
    (NotificationGotifyResource.Read default (Except.error ClientError.notFound)).isFatal
      = true ∧
    NotificationGotifyResource.Read default (Except.error ClientError.notFound)
      = ReadOutcome.failed
          ⟨Op.read, notificationGotifyResourceName, ClientError.text ClientError.notFound⟩ ∧
    (NotificationCustomScriptResource.Read default
        (Except.error ClientError.notFound)).isFatal = true ∧
    (NotificationGotifyResource.Read default
        (Except.error (ClientError.transport "boom"))).isFatal = true := by
  exact ⟨rfl, rfl, rfl, rfl⟩

/-- C5 amended: Read surfaces every remote error — not-found included —
through one and the same fatal labeled diagnostic path
(`helpers.ParseClientError` with the read label) and keeps the local
state; it does not signal not-found distinctly from a generic transport
error. -/
theorem notification_read_uniform_error_path :
    ∀ e : ClientError,
      (∀ st : NotificationGotify,
        NotificationGotifyResource.Read st (Except.error e)
          = ReadOutcome.failed (parseClientError Op.read notificationGotifyResourceName e)) ∧
      (∀ st : NotificationCustomScript,
        NotificationCustomScriptResource.Read st (Except.error e)
          = ReadOutcome.failed
              (parseClientError Op.read notificationCustomScriptResourceName e)) := by
  exact fun e => ⟨fun st => rfl, fun st => rfl⟩

/-- Stand-in for the remote client handle (`*lidarr.Lidarr` /
`*lidarr.APIClient`) held by the provider and handed to adapters. -/
structure StarrClient where
  apiKey : String
  url : String
  deriving DecidableEq, Repr

/-- The dynamically-typed `req.ProviderData` handed to `Configure`:
either the expected client handle or a value of some other type
(identified by its rendered type name). -/
inductive ProviderData
  | client (c : StarrClient)
  | other (typeName : String)
  deriving DecidableEq, Repr

/-- Outcome of a Configure call: silently skipped (no client stored, no
diagnostic), client stored, or a fatal diagnostic with the given
summary. -/
inductive ConfigureOutcome
  | skipped
  | configured (c : StarrClient)
  | errored (summary : String)
  deriving DecidableEq, Repr

/-- Whether a Configure outcome carries a fatal diagnostic. -/
def ConfigureOutcome.isError : ConfigureOutcome → Bool
  | .errored _ => true
  | _ => false

/-- `tools.UnexpectedResourceConfigureType` (external tools package),
the summary used for a wrong-typed resource `ProviderData`. -/
def UnexpectedResourceConfigureType : String := "Unexpected Resource Configure Type"

/-- `tools.UnexpectedDataSourceConfigureType` (external tools package),
the summary used for a wrong-typed data-source `ProviderData`. -/
def UnexpectedDataSourceConfigureType : String := "Unexpected DataSource Configure Type"

/-- `NotificationEmailResource.Configure`
(notification_email_resource.go lines 221-238): a nil `ProviderData`
returns silently with no diagnostic ("Prevent panic if the provider has
not been configured"); a present value of the wrong type adds a fatal
error; a client handle is stored. -/
def NotificationEmailResource.Configure : Option ProviderData → ConfigureOutcome
  | none => .skipped
  | some (.client c) => .configured c
  | some (.other _) => .errored UnexpectedResourceConfigureType

/-- `IndexerDataSource.Configure`
(indexer_data_source.go lines 208-225): identical structure. -/
def IndexerDataSource.Configure : Option ProviderData → ConfigureOutcome
  | none => .skipped
  | some (.client c) => .configured c
  | some (.other _) => .errored UnexpectedDataSourceConfigureType

/-- C9 counterexample: invoking Configure without any remote-client
handle (nil `ProviderData`) is silently ignored — no fatal error is
raised and no client is stored — for both the email resource and the
indexer data source. -/
theorem configure_nil_provider_data_silent :
    NotificationEmailResource.Configure none = ConfigureOutcome.skipped ∧
    (NotificationEmailResource.Configure none).isError = false ∧
    IndexerDataSource.Configure none = ConfigureOutcome.skipped ∧
    (IndexerDataSource.Configure none).isError = false := by
  exact ⟨rfl, rfl, rfl, rfl⟩

/-- C9 amended: Configure raises a fatal error exactly when it is handed
provider data of an unexpected type; a nil provider data (adapter
invoked before the provider supplied anything) is silently skipped with
no diagnostic and no client stored, and the client handle is installed
only when a valid handle is supplied. -/
theorem configure_error_iff_wrong_type :
    (NotificationEmailResource.Configure none = ConfigureOutcome.skipped) ∧
    (IndexerDataSource.Configure none = ConfigureOutcome.skipped) ∧
    (∀ c : StarrClient,
      NotificationEmailResource.Configure (some (ProviderData.client c))
        = ConfigureOutcome.configured c ∧
      IndexerDataSource.Configure (some (ProviderData.client c))
        = ConfigureOutcome.configured c) ∧
    (∀ t : String,
      NotificationEmailResource.Configure (some (ProviderData.other t))
        = ConfigureOutcome.errored UnexpectedResourceConfigureType ∧
      IndexerDataSource.Configure (some (ProviderData.other t))
        = ConfigureOutcome.errored UnexpectedDataSourceConfigureType) := by
  exact ⟨rfl, rfl, fun c => ⟨rfl, rfl⟩, fun t => ⟨rfl, rfl⟩⟩

/-- Strip an optional leading sign from a character list, as
`strconv.ParseInt` does: returns (negative?, remaining characters). -/
def splitSign (l : List Char) : Bool × List Char :=
  match l with
  | [] => (false, [])
  | c :: rest =>
      if c = '+' then (false, rest)
      else if c = '-' then (true, rest)
      else (false, c :: rest)

/-- Base-10 value of a digit character list. -/
def digitsVal (ds : List Char) : Nat :=
  ds.foldl (fun a c => a * 10 + (c.toNat - 48)) 0

/-- `strconv.Atoi` (Go standard library, as called by the import
handlers): parses an optional sign followed by a nonempty run of ASCII
decimal digits, rejecting anything else and any value outside the
64-bit signed range; `none` models a non-nil error. -/
def goAtoi (s : String) : Option Int :=
  let p := splitSign s.data
  if p.2 = [] then none
  else if p.2.all Char.isDigit then
    let v : Int := if p.1 then -(digitsVal p.2 : Int) else (digitsVal p.2 : Int)
    if -(2 ^ 63) ≤ v ∧ v ≤ 2 ^ 63 - 1 then some v else none
  else none

/-- Outcome of an ImportState call: a fatal validation diagnostic
(summary, detail) or the id attribute set to the parsed integer.  The
handler has no remote-client parameter at all: it performs no network
call on either path. -/
inductive ImportOutcome
  | invalid (summary detail : String)
  | setID (id : Int)
  deriving DecidableEq, Repr

/-- `tools.UnexpectedImportIdentifier` (external tools package), the
summary of the import validation error. -/
def UnexpectedImportIdentifier : String := "Unexpected Import Identifier"

/-- `NotificationEmailResource.ImportState`
(notification_email_resource.go lines 337-351): `strconv.Atoi` on the
supplied identifier; on error a fatal validation diagnostic, otherwise
the id attribute is set to the parsed integer.  No remote call is made
in either case. -/
def NotificationEmailResource.ImportState (reqID : String) : ImportOutcome :=
  match goAtoi reqID with
  | none =>
      .invalid UnexpectedImportIdentifier
        ("Expected import identifier with format: ID. Got: " ++ reqID)
  | some id => .setID id

/-- Modelled from the spec: `helpers.ImportStatePassthroughIntID` (the
helpers package is not under `src/`), used by every other resource's
ImportState: per spec section 6, it accepts a numeric ID as decimal
text, rejects non-numeric input with a descriptive error before any
network call, and otherwise passes the parsed ID through to the id
attribute. -/
def importStatePassthroughIntID (reqID : String) : ImportOutcome :=
  match goAtoi reqID with
  | none =>
      .invalid UnexpectedImportIdentifier
        ("Expected import identifier with format: ID. Got: " ++ reqID)
  | some id => .setID id

/-- C6: an import identifier that does not parse as a decimal integer
makes ImportState fail with a descriptive validation diagnostic (and the
handler, having no remote-client access, performs no network call),
while an identifier that does parse sets the id attribute to the parsed
integer — both for the email resource's inline handler and for the
helpers passthrough used by the other resources. -/
theorem import_state_parses_or_rejects :
    ∀ s : String,
      (goAtoi s = none →
        NotificationEmailResource.ImportState s
          = ImportOutcome.invalid UnexpectedImportIdentifier
              ("Expected import identifier with format: ID. Got: " ++ s) ∧
        importStatePassthroughIntID s
          = ImportOutcome.invalid UnexpectedImportIdentifier
              ("Expected import identifier with format: ID. Got: " ++ s)) ∧
      (∀ n : Int, goAtoi s = some n →
        NotificationEmailResource.ImportState s = ImportOutcome.setID n ∧
        importStatePassthroughIntID s = ImportOutcome.setID n) := by
  intro s
  constructor
  · intro h
    constructor <;> simp [NotificationEmailResource.ImportState,
      importStatePassthroughIntID, h]
  · intro n h
    constructor <;> simp [NotificationEmailResource.ImportState,
      importStatePassthroughIntID, h]

/-- C6 witness: the theorem applied at the garbage identifier
"not-a-number" (rejected with the validation diagnostic) and at "123"
(id set to 123). -/
theorem import_state_parses_or_rejects_witness :
    (NotificationEmailResource.ImportState "not-a-number"
      = ImportOutcome.invalid UnexpectedImportIdentifier
          ("Expected import identifier with format: ID. Got: " ++ "not-a-number")) ∧
    NotificationEmailResource.ImportState "123" = ImportOutcome.setID 123 := by
  exact ⟨((import_state_parses_or_rejects "not-a-number").1 (by decide)).1,
    ((import_state_parses_or_rejects "123").2 123 (by decide)).1⟩

/-- Modelled from library semantics: `int64validator.OneOf` of the
terraform-plugin-framework-validators library, as declared on the
gotify priority attribute.  Schema validation of a known attribute
value produces an error exactly when the value is not among the allowed
ones; null and unknown values are skipped.  Returns `true` when a
validation error is produced.  The framework runs attribute validators
during config validation, before any lifecycle operation and hence
before any network call. -/
def int64OneOfRejects (allowed : List Int) (v : TFInt64) : Bool :=
  match v with
  | .val i => !(allowed.contains i)
  | _ => false

/-- The declared gotify priority validator
(notification_gotify_resource.go lines 189-196): `OneOf(0, 2, 5, 8)`. -/
def gotifyPriorityRejects (v : TFInt64) : Bool :=
  int64OneOfRejects [0, 2, 5, 8] v

/-- C8: the gotify priority validator rejects, at schema-validation
time, exactly the known values outside the set `{0, 2, 5, 8}`; every
value inside the set passes. -/
theorem gotify_priority_validator_domain :
    ∀ i : Int,
      gotifyPriorityRejects (TFInt64.val i) = true ↔ i ≠ 0 ∧ i ≠ 2 ∧ i ≠ 5 ∧ i ≠ 8 := by
  intro i
  simp [gotifyPriorityRejects, int64OneOfRejects, List.contains, List.elem_eq_mem,
    decide_eq_true_eq]

/-- `indexerDataSourceName` (indexer_data_source.go). -/
def indexerDataSourceName : String := "indexer"

/-- The starr `lidarr.IndexerOutput` record, restricted to the members
`findIndexer` inspects plus the identifying ID. -/
structure IndexerOutput where
  name : String
  id : Int
  deriving DecidableEq, Repr

/-- `tools.ErrDataNotFoundError` (external tools package): a
data-not-found error carrying the resource kind, the searched field and
the searched value. -/
structure DataNotFoundError where
  resource : String
  field : String
  value : String
  deriving DecidableEq, Repr

/-- `findIndexer` (indexer_data_source.go lines 255-263): scan the
listed indexers in order and return the first whose `Name` equals the
requested name (exact string equality); if the scan finds none, return
the data-not-found error. -/
def findIndexer (name : String) : List IndexerOutput → Except DataNotFoundError IndexerOutput
  | [] => .error ⟨indexerDataSourceName, "name", name⟩
  | i :: rest => if i.name = name then .ok i else findIndexer name rest

/-- C10: `findIndexer` returns the first indexer in the list whose name
equals the requested name under exact (hence case-sensitive) string
equality — the returned record's name matches and every earlier record's
name does not — and it returns the data-not-found error precisely when
no listed indexer bears the requested name. -/
theorem findIndexer_first_match_or_not_found :
    ∀ (name : String) (xs : List IndexerOutput),
      (∀ i, findIndexer name xs = Except.ok i →
        i.name = name ∧ ∃ pre post, xs = pre ++ i :: post ∧ ∀ p ∈ pre, p.name ≠ name) ∧
      (findIndexer name xs = Except.error ⟨indexerDataSourceName, "name", name⟩ ↔
        ∀ i ∈ xs, i.name ≠ name) := by
  intro name xs
  induction xs with
  | nil =>
      refine ⟨fun i h => (nomatch h), ?_⟩
      simp [findIndexer]
  | cons x rest ih =>
      by_cases hx : x.name = name
      · constructor
        · intro i h
          simp only [findIndexer, hx, if_pos rfl] at h
          cases h
          exact ⟨hx, [], rest, rfl, by simp⟩
        · simp only [findIndexer, hx, if_pos rfl]
          constructor
          · intro h
            exact (nomatch h)
          · intro h
            exact absurd hx (h x (by simp))
      · have hstep : findIndexer name (x :: rest) = findIndexer name rest := by
          simp [findIndexer, hx]
        constructor
        · intro i h
          rw [hstep] at h
          obtain ⟨hn, pre, post, heq, hpre⟩ := ih.1 i h
          refine ⟨hn, x :: pre, post, by simp [heq], ?_⟩
          intro p hp
          rcases List.mem_cons.mp hp with hpx | hpp
          · rw [hpx]; exact hx
          · exact hpre p hpp
        · rw [hstep, ih.2]
          constructor
          · intro h i hi
            rcases List.mem_cons.mp hi with hix | hir
            · rw [hix]; exact hx
            · exact h i hir
          · intro h i hi
            exact h i (List.mem_cons_of_mem x hi)

/-- C10 witness: the theorem applied to a concrete list in which a
differently-cased name comes first — the lookup skips "BETA", returns
the first record named "beta", and the not-found characterization holds
for a name absent from the list. -/
theorem findIndexer_first_match_witness :
    ((⟨"beta", 2⟩ : IndexerOutput).name = "beta" ∧
      ∃ pre post,
        ([⟨"BETA", 0⟩, ⟨"beta", 2⟩, ⟨"beta", 3⟩] : List IndexerOutput)
          = pre ++ (⟨"beta", 2⟩ : IndexerOutput) :: post ∧
        ∀ p ∈ pre, p.name ≠ "beta") ∧
    (findIndexer "gamma" ([⟨"BETA", 0⟩, ⟨"beta", 2⟩] : List IndexerOutput)
      = Except.error ⟨indexerDataSourceName, "name", "gamma"⟩ ↔
      ∀ i ∈ ([⟨"BETA", 0⟩, ⟨"beta", 2⟩] : List IndexerOutput), i.name ≠ "gamma") := by
  exact ⟨(findIndexer_first_match_or_not_found "beta"
      [⟨"BETA", 0⟩, ⟨"beta", 2⟩, ⟨"beta", 3⟩]).1 ⟨"beta", 2⟩ rfl,
    (findIndexer_first_match_or_not_found "gamma" [⟨"BETA", 0⟩, ⟨"beta", 2⟩]).2⟩

/-- The decimal digit characters of `n`, most significant first — the
digits `strconv.Itoa` renders for a nonnegative value. -/
def natDigits (n : Nat) : List Char :=
  if _h : n < 10 then [Char.ofNat (48 + n)]
  else natDigits (n / 10) ++ [Char.ofNat (48 + n % 10)]
decreasing_by exact Nat.div_lt_self (by omega) (by omega)

/-- `strconv.Itoa` restricted to nonnegative counts (as applied to a Go
slice length). -/
def natDecimal (n : Nat) : String := String.mk (natDigits n)

/-- A rendered decimal digit is a digit character and its code point is
the expected one. -/
theorem charOfNat_digit (d : Nat) (h : d < 10) :
    (Char.ofNat (48 + d)).isDigit = true ∧ (Char.ofNat (48 + d)).toNat = 48 + d := by
  interval_cases d <;> exact ⟨by decide, by decide⟩

/-- Appending one digit multiplies the accumulated value by ten. -/
theorem digitsVal_append (xs : List Char) (c : Char) :
    digitsVal (xs ++ [c]) = digitsVal xs * 10 + (c.toNat - 48) := by
  simp [digitsVal, List.foldl_append]

/-- `natDigits` renders a nonempty all-digit list whose base-10 value is
the rendered number. -/
theorem natDigits_spec (n : Nat) :
    natDigits n ≠ [] ∧ (natDigits n).all Char.isDigit = true ∧
      digitsVal (natDigits n) = n := by
  induction n using Nat.strong_induction_on with
  | _ n ih =>
    by_cases h : n < 10
    · rw [natDigits, dif_pos h]
      obtain ⟨hd, ht⟩ := charOfNat_digit n h
      refine ⟨by simp, by simp [hd], ?_⟩
      simp [digitsVal, ht]
    · rw [natDigits, dif_neg h]
      have hdiv : n / 10 < n := Nat.div_lt_self (by omega) (by omega)
      obtain ⟨hne, hall, hval⟩ := ih (n / 10) hdiv
      have hmod : n % 10 < 10 := Nat.mod_lt n (by omega)
      obtain ⟨hd, ht⟩ := charOfNat_digit (n % 10) hmod
      refine ⟨by simp, ?_, ?_⟩
      · simp [List.all_append, hall, hd]
      · rw [digitsVal_append, hval, ht]
        have := Nat.div_add_mod n 10
        omega

/-- A digit character is neither sign character. -/
theorem isDigit_ne_sign (c : Char) (h : c.isDigit = true) : c ≠ '+' ∧ c ≠ '-' := by
  constructor <;> intro hEq <;> rw [hEq] at h <;> exact absurd h (by decide)

/-- Parse-print round trip: the decimal rendering of a count within the
64-bit signed range parses back to the same value through the embedded
`strconv.Atoi`. -/
theorem goAtoi_natDecimal (n : Nat) (h : (n : Int) ≤ 2 ^ 63 - 1) :
    goAtoi (natDecimal n) = some (n : Int) := by
  obtain ⟨hne, hall, hval⟩ := natDigits_spec n
  obtain ⟨c, cs, hcons⟩ := List.exists_cons_of_ne_nil hne
  have hcd : c.isDigit = true := by
    have hh := hall
    rw [hcons, List.all_cons, Bool.and_eq_true] at hh
    exact hh.1
  obtain ⟨hcp, hcm⟩ := isDigit_ne_sign c hcd
  have hsplit : splitSign (natDecimal n).data = (false, natDigits n) := by
    show splitSign (natDigits n) = (false, natDigits n)
    rw [hcons]
    simp [splitSign, hcp, hcm]
  rw [goAtoi]
  simp only [hsplit]
  rw [if_neg hne, if_pos hall]
  simp only [Bool.false_eq_true, if_false]
  rw [hval]
  rw [if_pos ⟨le_trans (by norm_num) (Int.ofNat_nonneg n), h⟩]

/-- `notificationsDataSourceName` (src/unnamed/part_003 and part_004). -/
def notificationsDataSourceName : String := "notifications"

/-- The `Notifications` data-source model (src/unnamed/part_003
lines 32-35 and part_004 lines 31-34): the collection set plus the
synthetic string ID. -/
structure Notifications where
  notifications : TFSet Notification
  id : TFString
  deriving DecidableEq, Repr

/-- The Go loop `profiles := make([]Notification, len(response))`
followed by `profiles[i].write(ctx, p)` per index: each wire record is
decoded by the generic write projection applied to the zero-value
(all-null) generic record. -/
def writeEachNotification : List NotificationResourceWire → List Notification
  | [] => []
  | p :: rest => Notification.write {} p :: writeEachNotification rest

/-- The same loop of the starr-era data source (src/unnamed/part_003),
decoding `lidarr.NotificationOutput` records. -/
def writeEachOutput : List NotificationOutputWire → List Notification
  | [] => []
  | p :: rest => Notification.writeOutput {} p :: writeEachOutput rest

/-- `NotificationsDataSource.Read` (src/unnamed/part_004
lines 422-449), at the remote boundary: on success every listed wire
record is decoded through the generic `write` projection and the
synthetic ID is `strconv.Itoa(len(response))`; on failure a fatal
diagnostic labeled `helpers.Read`. -/
def NotificationsDataSource.Read
    (remote : Except ClientError (List NotificationResourceWire)) :
    ReadOutcome Notifications :=
  match remote with
  | .error e => .failed (parseClientError .read notificationsDataSourceName e)
  | .ok response =>
      .synced { notifications := .val (writeEachNotification response)
                id := .val (natDecimal response.length) }

/-- The starr-era `NotificationsDataSource.Read` (src/unnamed/part_003
lines 375-402): same structure over the starr wire shape, with the
inline `"Unable to read %s"` message. -/
def NotificationsDataSourceStarr.Read
    (remote : Except ClientError (List NotificationOutputWire)) :
    ReadOutcome Notifications :=
  match remote with
  | .error e => .failed ⟨.read, notificationsDataSourceName, e.text⟩
  | .ok response =>
      .synced { notifications := .val (writeEachOutput response)
                id := .val (natDecimal response.length) }

/-- The per-index decode loop is the map of the generic write
projection over the response list. -/
theorem writeEachNotification_eq_map (l : List NotificationResourceWire) :
    writeEachNotification l = l.map (Notification.write {}) := by
  induction l with
  | nil => rfl
  | cons p rest ih => simp [writeEachNotification, ih]

/-- Starr-era counterpart of `writeEachNotification_eq_map`. -/
theorem writeEachOutput_eq_map (l : List NotificationOutputWire) :
    writeEachOutput l = l.map (Notification.writeOutput {}) := by
  induction l with
  | nil => rfl
  | cons p rest ih => simp [writeEachOutput, ih]

/-- C7: a successful Read of the notifications data source maps each of
the returned remote records individually through the generic `write`
projection (the one the single-resource lifecycle uses to decode
responses) and sets the data source's synthetic id attribute to the
decimal string of the collection's cardinality — a string that parses
back to exactly that count; this holds for both generations of the data
source present in the source. -/
theorem notifications_list_projection_and_cardinality_id :
    ∀ (response : List NotificationResourceWire)
      (responseStarr : List NotificationOutputWire),
      NotificationsDataSource.Read (Except.ok response)
        = ReadOutcome.synced
            { notifications := TFSet.val (response.map (Notification.write {}))
              id := TFString.val (natDecimal response.length) } ∧
      NotificationsDataSourceStarr.Read (Except.ok responseStarr)
        = ReadOutcome.synced
            { notifications := TFSet.val (responseStarr.map (Notification.writeOutput {}))
              id := TFString.val (natDecimal responseStarr.length) } ∧
      ((response.length : Int) ≤ 2 ^ 63 - 1 →
        goAtoi (natDecimal response.length) = some (response.length : Int)) := by
  intro response responseStarr
  refine ⟨?_, ?_, fun h => goAtoi_natDecimal response.length h⟩
  · simp [NotificationsDataSource.Read, writeEachNotification_eq_map]
  · simp [NotificationsDataSourceStarr.Read, writeEachOutput_eq_map]

/-- C7 witness: the theorem applied to a one-element devopsarr response
and an empty starr response; the cardinality bound is discharged at 1. -/
theorem notifications_list_projection_witness :
    NotificationsDataSource.Read (Except.ok ([{}] : List NotificationResourceWire))
      = ReadOutcome.synced
          { notifications :=
              TFSet.val (([{}] : List NotificationResourceWire).map (Notification.write {}))
            id := TFString.val (natDecimal 1) } ∧
    goAtoi (natDecimal 1) = some 1 := by
  have h := notifications_list_projection_and_cardinality_id [{}] []
  exact ⟨h.1, h.2.2 (by decide)⟩
